import Mathlib

/-!
Shallow embedding of the layout/geometry/animation core of a desktop
notification renderer.  The block implementations are translated from
`src/rendering/blocks/scrolling_text_block.rs`,
`src/rendering/blocks/text_block.rs` and `src/rendering/window.rs`.
Value types and helpers that live outside those files (geometry
primitives, anchor resolution, text measurement, placeholder
substitution, the layout tree walk) are modelled from the specification
and carry a doc comment saying so.  Floating-point scalars are modelled
as rationals; machine integers as integers.
-/

/-- Modelled from the spec: axis-aligned rectangle value type from
maths_utility (x, y, width, height), outside the translated files. -/
structure Rect where
  x : ℚ
  y : ℚ
  width : ℚ
  height : ℚ
deriving DecidableEq, Repr

/-- Modelled from the spec: in-place position update `set_xy`. -/
def Rect.set_xy (r : Rect) (x y : ℚ) : Rect := { r with x := x, y := y }

/-- Modelled from the spec: the degenerate rectangle `Rect::EMPTY`. -/
def Rect.empty : Rect := ⟨0, 0, 0, 0⟩

/-- Modelled from the spec: 2D offset value type from maths_utility. -/
structure Vec2 where
  x : ℚ
  y : ℚ
deriving DecidableEq, Repr

/-- Modelled from the spec: {min, max} bound on a dimension; max = -1
conventionally means unconstrained. -/
structure MinMax where
  min : ℤ
  max : ℤ
deriving DecidableEq, Repr

/-- Modelled from the spec: {left, top, right, bottom} inset converting a
content rect to a padded rect (config value type, plain data). -/
structure Padding where
  left : ℚ
  top : ℚ
  right : ℚ
  bottom : ℚ
deriving DecidableEq, Repr

/-- Modelled from the spec: linear interpolation `maths_utility::lerp`;
at t = 0 the value is a, at t = 1 the value is b. -/
def lerp (a b t : ℚ) : ℚ := a + t * (b - a)

/-- Modelled from the spec: `maths_utility::distance`, the absolute
difference used for the scroll distance between the bounce points. -/
def distance (a b : ℚ) : ℚ := |a - b|

/-- Modelled from the spec: the nine standard anchor points of the hook
enum (layout.rs, outside the translated files). -/
inductive AnchorPosition where
  | topLeft | top | topRight
  | middleLeft | center | middleRight
  | bottomLeft | bottom | bottomRight
deriving DecidableEq, Repr

/-- A hook designates the anchor point of the parent rect that the
corresponding point of a child rect is positioned on. -/
abbrev Hook := AnchorPosition

/-- Modelled from the spec: x coordinate of the hook-designated point of a
rect. -/
def AnchorPosition.pointX : AnchorPosition → Rect → ℚ
  | .topLeft, r => r.x
  | .middleLeft, r => r.x
  | .bottomLeft, r => r.x
  | .top, r => r.x + r.width / 2
  | .center, r => r.x + r.width / 2
  | .bottom, r => r.x + r.width / 2
  | .topRight, r => r.x + r.width
  | .middleRight, r => r.x + r.width
  | .bottomRight, r => r.x + r.width

/-- Modelled from the spec: y coordinate of the hook-designated point of a
rect. -/
def AnchorPosition.pointY : AnchorPosition → Rect → ℚ
  | .topLeft, r => r.y
  | .top, r => r.y
  | .topRight, r => r.y
  | .middleLeft, r => r.y + r.height / 2
  | .center, r => r.y + r.height / 2
  | .middleRight, r => r.y + r.height / 2
  | .bottomLeft, r => r.y + r.height
  | .bottom, r => r.y + r.height
  | .bottomRight, r => r.y + r.height

/-- Modelled from the spec: `LayoutBlock::find_anchor_pos` computes the
top-left position for own_rect such that the hook-designated point of
own_rect coincides with the corresponding point of parent_rect, then
applies offset as an additional translation. -/
def LayoutBlock.find_anchor_pos (hook : Hook) (offset : Vec2)
    (parent_rect own_rect : Rect) : Vec2 :=
  ⟨hook.pointX parent_rect - hook.pointX (Rect.mk 0 0 own_rect.width own_rect.height) + offset.x,
   hook.pointY parent_rect - hook.pointY (Rect.mk 0 0 own_rect.width own_rect.height) + offset.y⟩

/-- Ellipsize modes of the text renderer (text.rs, outside the translated
files); only Middle and NoEllipsize are exercised by the blocks. -/
inductive EllipsizeMode where
  | noEllipsize | start | middle | endEllipsize
deriving DecidableEq, Repr

/-- Modelled from the spec: the deterministic text-measurement service
(text.rs, outside the translated files).  `contentSize text font
max_width max_height mode` is the measured content size of the text under
the given constraints; the service is a pure function, so identical calls
within a frame return identical sizes. -/
structure TextMeasure where
  contentSize : String → String → ℤ → ℤ → EllipsizeMode → ℚ × ℚ

/-- Modelled from the spec: the `set_text` / `get_sized_padded_rect` call
pair of the text renderer: measure the text under the given constraints,
apply the minimum size bounds, and add the padding inset.  The rect is
produced at the origin; callers position it afterwards. -/
def TextMeasure.sizedPaddedRect (tm : TextMeasure) (text font : String)
    (maxWidth maxHeight : ℤ) (mode : EllipsizeMode)
    (pad : Padding) (minWidth minHeight : ℤ) : Rect :=
  let s := tm.contentSize text font maxWidth maxHeight mode
  ⟨0, 0, max s.1 (minWidth : ℚ) + pad.left + pad.right,
   max s.2 (minHeight : ℚ) + pad.top + pad.bottom⟩

/-- The notification fields the blocks read (bus/dbus, outside the
translated files): only the presence of the two optional images matters
for size-profile selection. -/
structure Notification where
  app_image : Option Unit
  hint_image : Option Unit
deriving DecidableEq, Repr

/-- The `NotifyWindow` fields that block init and draw consume: the
notification, the per-window text renderer, and placeholder substitution
(`maths_utility::format_notification_string`, modelled from the spec as an
oracle resolving a template string against this window notification). -/
structure NotifyWindowCtx where
  notification : Notification
  text : TextMeasure
  fmtString : String → String

/-- Observable painting effects of a draw call: a clip region set on the
drawing context, text painted at a position, padded text painted at a
position. -/
inductive PaintOp where
  | clip (r : Rect)
  | paintText (pos : Vec2)
  | paintTextPadded (pos : Vec2) (pad : Padding)
deriving DecidableEq, Repr

/-- Translation of `ScrollingTextBlockParameters`
(scrolling_text_block.rs lines 12-47).  The serde-skipped fields are the
cached derived state; the color field is plain data consumed only by the
paint service and is omitted. -/
structure ScrollingTextBlockParameters where
  padding : Padding
  text : String
  font : String
  width : MinMax
  scroll_speed : ℚ
  lhs_dist : ℚ
  rhs_dist : ℚ
  scroll_t : ℚ
  width_image_hint : Option MinMax
  width_image_app : Option MinMax
  width_image_both : Option MinMax
  render_when_empty : Bool
  real_text : String
  clip_rect : Rect
  text_rect : Rect
  scroll_distance : ℚ
  real_width : MinMax
  update_enabled : Bool
deriving DecidableEq, Repr

/-- Translation of `ScrollingTextBlockParameters::get_width`
(scrolling_text_block.rs lines 50-57). -/
def ScrollingTextBlockParameters.get_width
    (self : ScrollingTextBlockParameters) (notification : Notification) : MinMax :=
  match notification.app_image.isSome, notification.hint_image.isSome with
  | true, true => self.width_image_both.getD self.width
  | true, false => self.width_image_app.getD self.width
  | false, true => self.width_image_hint.getD self.width
  | false, false => self.width

/-- Translation of `ScrollingTextBlockParameters::predict_rect_and_init`
(scrolling_text_block.rs lines 124-169).  The mutated receiver is
returned alongside the predicted rect. -/
def ScrollingTextBlockParameters.predict_rect_and_init
    (self : ScrollingTextBlockParameters) (hook : Hook) (offset : Vec2)
    (parent_rect : Rect) (window : NotifyWindowCtx) :
    ScrollingTextBlockParameters × Rect :=
  let text := window.fmtString self.text
  if text.isEmpty && !self.render_when_empty then
    let self1 := { self with update_enabled := false, real_text := text }
    let pos := LayoutBlock.find_anchor_pos hook offset parent_rect Rect.empty
    (self1, ⟨pos.x, pos.y, 0, 0⟩)
  else
    let real_width := self.get_width window.notification
    let rect := window.text.sizedPaddedRect text self.font real_width.max 0
      .middle self.padding real_width.min 0
    let clip_rect := window.text.sizedPaddedRect text self.font real_width.max 0
      .middle ⟨0, 0, 0, 0⟩ 0 0
    let text_rect := window.text.sizedPaddedRect text self.font (-1) 0
      .noEllipsize self.padding 0 0
    let self1 := { self with real_width := real_width }
    let self2 := if text_rect.width > (real_width.max : ℚ) then
        { self1 with update_enabled := true }
      else self1
    let pos := LayoutBlock.find_anchor_pos hook offset parent_rect rect
    let bounce_left := pos.x + self.padding.left + self.lhs_dist
    let bounce_right := pos.x + self.padding.left + clip_rect.width - self.rhs_dist - text_rect.width
    let self3 := { self2 with
      real_text := text
      text_rect := text_rect
      clip_rect := clip_rect
      scroll_distance := distance bounce_left bounce_right }
    (self3, rect.set_xy pos.x pos.y)

/-- Translation of `ScrollingTextBlockParameters::draw`
(scrolling_text_block.rs lines 61-122).  The source takes the receiver by
shared reference, so the block state is returned unchanged together with
the rect and the observable paint effects. -/
def ScrollingTextBlockParameters.draw
    (self : ScrollingTextBlockParameters) (hook : Hook) (offset : Vec2)
    (parent_rect : Rect) (window : NotifyWindowCtx) :
    ScrollingTextBlockParameters × Rect × List PaintOp :=
  if self.real_text.isEmpty && !self.render_when_empty then
    let pos := LayoutBlock.find_anchor_pos hook offset parent_rect Rect.empty
    (self, ⟨pos.x, pos.y, 0, 0⟩, [])
  else
    let width := self.real_width
    let rect := window.text.sizedPaddedRect self.real_text self.font width.max 0
      .middle self.padding width.min 0
    let pos0 := LayoutBlock.find_anchor_pos hook offset parent_rect rect
    let pos1 : Vec2 := ⟨pos0.x + self.padding.left, pos0.y + self.padding.top⟩
    if self.text_rect.width > (width.max : ℚ) then
      let clipR : Rect := ⟨pos1.x, pos1.y, self.clip_rect.width, self.clip_rect.height⟩
      let bounce_left := pos1.x + self.padding.left + self.lhs_dist
      let bounce_right := pos1.x + self.padding.left + self.clip_rect.width
        - self.rhs_dist - self.text_rect.width
      let lerped := lerp bounce_right bounce_left self.scroll_t
      let pos2 : Vec2 := ⟨pos1.x - self.padding.left, pos1.y - self.padding.top⟩
      (self, rect.set_xy pos2.x pos2.y, [.clip clipR, .paintText ⟨lerped, pos1.y⟩])
    else
      let pos2 : Vec2 := ⟨pos1.x - self.padding.left, pos1.y - self.padding.top⟩
      (self, rect.set_xy pos2.x pos2.y, [.paintText pos1])

/-- Translation of `ScrollingTextBlockParameters::update`
(scrolling_text_block.rs lines 171-196); delta_time is the elapsed time
in seconds. -/
def ScrollingTextBlockParameters.update
    (self : ScrollingTextBlockParameters) (delta_time : ℚ) :
    ScrollingTextBlockParameters × Bool :=
  if !self.update_enabled then
    (self, false)
  else
    let width := self.real_width
    let self1 := { self with
      scroll_t := self.scroll_t
        + delta_time * self.scroll_speed * ((width.max : ℚ) / self.scroll_distance) }
    let self2 :=
      if self1.scroll_speed > 0 then
        if self1.scroll_t ≥ 1 then { self1 with scroll_speed := -self1.scroll_speed } else self1
      else if self1.scroll_speed < 0 then
        if self1.scroll_t ≤ 0 then { self1 with scroll_speed := -self1.scroll_speed } else self1
      else self1
    (self2, true)

/-- Iterated per-frame update over a sequence of frame times. -/
def ScrollingTextBlockParameters.updateIter
    (self : ScrollingTextBlockParameters) :
    List ℚ → ScrollingTextBlockParameters
  | [] => self
  | dt :: rest => ((self.update dt).1).updateIter rest

/-- Translation of `Dimensions` (text_block.rs lines 13-17). -/
structure Dimensions where
  width : MinMax
  height : MinMax
deriving DecidableEq, Repr

/-- Translation of `TextBlockParameters` (text_block.rs lines 19-38); the
color field is plain data consumed only by the paint service and is
omitted. -/
structure TextBlockParameters where
  padding : Padding
  text : String
  font : String
  dimensions : Dimensions
  dimensions_image_hint : Option Dimensions
  dimensions_image_app : Option Dimensions
  dimensions_image_both : Option Dimensions
  ellipsize : EllipsizeMode
  render_when_empty : Bool
  real_text : String
deriving DecidableEq, Repr

/-- Translation of `TextBlockParameters::get_dimensions`
(text_block.rs lines 41-48). -/
def TextBlockParameters.get_dimensions
    (self : TextBlockParameters) (notification : Notification) : Dimensions :=
  match notification.app_image.isSome, notification.hint_image.isSome with
  | true, true => self.dimensions_image_both.getD self.dimensions
  | true, false => self.dimensions_image_app.getD self.dimensions
  | false, true => self.dimensions_image_hint.getD self.dimensions
  | false, false => self.dimensions

/-- Translation of `TextBlockParameters::predict_rect_and_init`
(text_block.rs lines 83-105). -/
def TextBlockParameters.predict_rect_and_init
    (self : TextBlockParameters) (hook : Hook) (offset : Vec2)
    (parent_rect : Rect) (window : NotifyWindowCtx) :
    TextBlockParameters × Rect :=
  let text := window.fmtString self.text
  if text.isEmpty && !self.render_when_empty then
    let self1 := { self with real_text := text }
    let pos := LayoutBlock.find_anchor_pos hook offset parent_rect Rect.empty
    (self1, ⟨pos.x, pos.y, 0, 0⟩)
  else
    let dimensions := self.get_dimensions window.notification
    let rect := window.text.sizedPaddedRect text self.font
      dimensions.width.max dimensions.height.max self.ellipsize
      self.padding dimensions.width.min dimensions.height.min
    let self1 := { self with real_text := text }
    let pos := LayoutBlock.find_anchor_pos hook offset parent_rect rect
    (self1, rect.set_xy pos.x pos.y)

/-- Translation of `TextBlockParameters::draw` (text_block.rs lines
52-81).  The source takes the receiver by shared reference, so the block
state is returned unchanged; the debug rectangle is outside the specified
core and is not an observable paint effect here. -/
def TextBlockParameters.draw
    (self : TextBlockParameters) (hook : Hook) (offset : Vec2)
    (parent_rect : Rect) (window : NotifyWindowCtx) :
    TextBlockParameters × Rect × List PaintOp :=
  if self.real_text.isEmpty && !self.render_when_empty then
    let pos := LayoutBlock.find_anchor_pos hook offset parent_rect Rect.empty
    (self, ⟨pos.x, pos.y, 0, 0⟩, [])
  else
    let dimensions := self.get_dimensions window.notification
    let rect := window.text.sizedPaddedRect self.real_text self.font
      dimensions.width.max dimensions.height.max self.ellipsize
      self.padding dimensions.width.min dimensions.height.min
    let pos := LayoutBlock.find_anchor_pos hook offset parent_rect rect
    (self, rect.set_xy pos.x pos.y, [.paintTextPadded pos self.padding])

/-- Modelled from the spec: the drawable-element tagged union behind the
shared capability interface (layout.rs, outside the translated files);
the two variants in scope are the text block and the scrolling-text
block. -/
inductive DrawableElement where
  | textBlock (p : TextBlockParameters)
  | scrollingText (p : ScrollingTextBlockParameters)
deriving DecidableEq, Repr

/-- Dispatch of `predict_rect_and_init` over the element variants. -/
def DrawableElement.predict_rect_and_init
    (el : DrawableElement) (hook : Hook) (offset : Vec2)
    (parent_rect : Rect) (window : NotifyWindowCtx) :
    DrawableElement × Rect :=
  match el with
  | .textBlock p =>
    let r := p.predict_rect_and_init hook offset parent_rect window
    (.textBlock r.1, r.2)
  | .scrollingText p =>
    let r := p.predict_rect_and_init hook offset parent_rect window
    (.scrollingText r.1, r.2)

/-- Dispatch of `draw` over the element variants. -/
def DrawableElement.draw
    (el : DrawableElement) (hook : Hook) (offset : Vec2)
    (parent_rect : Rect) (window : NotifyWindowCtx) :
    DrawableElement × Rect × List PaintOp :=
  match el with
  | .textBlock p =>
    let r := p.draw hook offset parent_rect window
    (.textBlock r.1, r.2.1, r.2.2)
  | .scrollingText p =>
    let r := p.draw hook offset parent_rect window
    (.scrollingText r.1, r.2.1, r.2.2)

/-- Dispatch of `update` over the element variants.  Modelled from the
spec for the text block: only the scrolling variant advances any state,
every other variant keeps the trait default, which reports no change.
Block update never reads the window, so it is not threaded through. -/
def DrawableElement.update (el : DrawableElement) (delta_time : ℚ) :
    DrawableElement × Bool :=
  match el with
  | .textBlock p => (.textBlock p, false)
  | .scrollingText p =>
    let r := p.update delta_time
    (.scrollingText r.1, r.2)

/-- Modelled from the spec: a layout tree node owns a hook, an offset, a
drawable element and its ordered children (layout.rs, outside the
translated files). -/
inductive LayoutBlock where
  | node (hook : Hook) (offset : Vec2) (el : DrawableElement)
      (children : List LayoutBlock)

mutual

/-- Modelled from the spec: `LayoutBlock::update_tree` runs every block
element update for the elapsed frame time and ORs together each block
changed result. -/
def LayoutBlock.update_tree (delta_time : ℚ) :
    LayoutBlock → LayoutBlock × Bool
  | .node hook offset el children =>
    let r := el.update delta_time
    let rc := LayoutBlock.update_forest delta_time children
    (.node hook offset r.1 rc.1, r.2 || rc.2)

/-- The child walk of `update_tree` over an ordered list of siblings. -/
def LayoutBlock.update_forest (delta_time : ℚ) :
    List LayoutBlock → List LayoutBlock × Bool
  | [] => ([], false)
  | c :: cs =>
    let r := c.update_tree delta_time
    let rs := LayoutBlock.update_forest delta_time cs
    (r.1 :: rs.1, r.2 || rs.2)

end

/-- Translation of the `UpdateModes` bitflags (window.rs lines 23-29) as
the two sub-flags. -/
structure UpdateModes where
  draw : Bool
  fuse : Bool
deriving DecidableEq, Repr

/-- Elapsed frame time, as the window update consumes it: whole
milliseconds (`as_millis` cast to i32) and seconds (`as_secs_f64`). -/
structure Duration where
  millis : ℤ
  secs : ℚ

/-- The stateful `NotifyWindow` fields that its update reads and writes
(window.rs lines 31-57): the layout tree, the destruction mark, the fuse
and the update-mode flags.  The layout Option take/put dance in the
source is an ownership artifact; the layout is always present during
update. -/
structure NotifyWindow where
  layout : LayoutBlock
  marked_for_destroy : Bool
  fuse : ℤ
  update_mode : UpdateModes

/-- Translation of `NotifyWindow::update` (window.rs lines 216-240).
Returns the new window state, the dirty flag the function returns, and
whether a redraw was requested. -/
def NotifyWindow.update (self : NotifyWindow) (delta_time : Duration) :
    NotifyWindow × Bool × Bool :=
  if self.update_mode.fuse then
    let self1 := { self with fuse := self.fuse - delta_time.millis }
    if self1.fuse ≤ 0 then
      ({ self1 with marked_for_destroy := true }, true, false)
    else if self1.update_mode.draw then
      let r := self1.layout.update_tree delta_time.secs
      ({ self1 with layout := r.1 }, r.2, r.2)
    else
      (self1, false, false)
  else if self.update_mode.draw then
    let r := self.layout.update_tree delta_time.secs
    ({ self with layout := r.1 }, r.2, r.2)
  else
    (self, false, false)

/-- Text-measurement instance for the concrete spec scenario: measured
width 100 under the profile constraint, 145 unconstrained, line height
10. -/
def measureScenario : TextMeasure :=
  ⟨fun _ _ m _ _ => (if m < 0 then 145 else 100, 10)⟩

/-- Window context for the concrete spec scenario: no images, identity
placeholder substitution. -/
def ctxScenario : NotifyWindowCtx :=
  ⟨⟨Option.none, Option.none⟩, measureScenario, fun s => s⟩

/-- Scrolling block of the concrete spec scenario: profile max_width 100,
padding.left 5, lhs_dist 2, rhs_dist 3, with the cached fields at their
deserialized defaults. -/
def scrollScenarioParams : ScrollingTextBlockParameters where
  padding := ⟨5, 0, 0, 0⟩
  text := "hello"
  font := "sans"
  width := ⟨0, 100⟩
  scroll_speed := 1/2
  lhs_dist := 2
  rhs_dist := 3
  scroll_t := 0
  width_image_hint := Option.none
  width_image_app := Option.none
  width_image_both := Option.none
  render_when_empty := false
  real_text := ""
  clip_rect := Rect.empty
  text_rect := Rect.empty
  scroll_distance := 0
  real_width := ⟨0, 0⟩
  update_enabled := false

/-- Measurement instance that honours the max-width constraint: natural
width 10, clamped when a constraint is given. -/
def measureClamped : TextMeasure :=
  ⟨fun _ _ m _ _ => (if 0 ≤ m then min (m : ℚ) 10 else 10, 1)⟩

/-- Window context over the clamped measurement instance. -/
def ctxClamped : NotifyWindowCtx :=
  ⟨⟨Option.none, Option.none⟩, measureClamped, fun s => s⟩

/-- Scrolling block whose two bounce points coincide at init: zero padding
and zero bounce distances with non-overflowing text. -/
def scrollCoincidentParams : ScrollingTextBlockParameters where
  padding := ⟨0, 0, 0, 0⟩
  text := "a"
  font := "sans"
  width := ⟨0, 20⟩
  scroll_speed := 1/2
  lhs_dist := 0
  rhs_dist := 0
  scroll_t := 0
  width_image_hint := Option.none
  width_image_app := Option.none
  width_image_both := Option.none
  render_when_empty := false
  real_text := ""
  clip_rect := Rect.empty
  text_rect := Rect.empty
  scroll_distance := 0
  real_width := ⟨0, 0⟩
  update_enabled := false

/-- A scrolling block state mid-animation, with the cached fields the
concrete scenario init produces and the phase at 0.2. -/
def scrollEnabledParams : ScrollingTextBlockParameters :=
  { scrollScenarioParams with
      real_text := "hello"
      real_width := ⟨0, 100⟩
      clip_rect := ⟨0, 0, 100, 10⟩
      text_rect := ⟨0, 0, 150, 10⟩
      scroll_distance := 55
      update_enabled := true
      scroll_t := 1/5 }

/-- Plain text block used by the witnesses. -/
def textScenarioParams : TextBlockParameters where
  padding := ⟨5, 0, 0, 0⟩
  text := "hello"
  font := "sans"
  dimensions := ⟨⟨0, 100⟩, ⟨0, 0⟩⟩
  dimensions_image_hint := Option.none
  dimensions_image_app := Option.none
  dimensions_image_both := Option.none
  ellipsize := .middle
  render_when_empty := false
  real_text := ""

/-- Scrolling block with an empty template. -/
def scrollEmptyParams : ScrollingTextBlockParameters :=
  { scrollScenarioParams with text := "" }

/-- Text block with an empty template. -/
def textEmptyParams : TextBlockParameters :=
  { textScenarioParams with text := "" }

/-- Window used by the driver witnesses: one scrolling block, both update
modes active, 100 ms of fuse left. -/
def windowScenario : NotifyWindow where
  layout := .node .topLeft ⟨0, 0⟩ (.scrollingText scrollEnabledParams) []
  marked_for_destroy := false
  fuse := 100
  update_mode := ⟨true, true⟩

/-- The mid-animation scrolling block with the configured speed zero. -/
def scrollZeroSpeedParams : ScrollingTextBlockParameters :=
  { scrollEnabledParams with scroll_speed := 0 }

/-- Scrolling block with the spec-documented unconstrained profile max
width (-1), zero padding and zero bounce distances: its bounce points
coincide at init while its text still counts as wider than the negative
max. -/
def scrollUnconstrainedParams : ScrollingTextBlockParameters where
  padding := ⟨0, 0, 0, 0⟩
  text := "a"
  font := "sans"
  width := ⟨0, -1⟩
  scroll_speed := 1/2
  lhs_dist := 0
  rhs_dist := 0
  scroll_t := 0
  width_image_hint := Option.none
  width_image_app := Option.none
  width_image_both := Option.none
  render_when_empty := false
  real_text := ""
  clip_rect := Rect.empty
  text_rect := Rect.empty
  scroll_distance := 0
  real_width := ⟨0, 0⟩
  update_enabled := false

theorem ScrollingTextBlockParameters.update_of_disabled
    (p : ScrollingTextBlockParameters) (dt : ℚ) (h : p.update_enabled = false) :
    p.update dt = (p, false) := by
  simp [ScrollingTextBlockParameters.update, h]

theorem ScrollingTextBlockParameters.updateIter_of_disabled
    (p : ScrollingTextBlockParameters) (dts : List ℚ) (h : p.update_enabled = false) :
    p.updateIter dts = p := by
  induction dts with
  | nil => rfl
  | cons dt rest ih =>
    simp [ScrollingTextBlockParameters.updateIter,
      ScrollingTextBlockParameters.update_of_disabled p dt h, ih]

theorem ScrollingTextBlockParameters.scrollingDraw_fst
    (p : ScrollingTextBlockParameters) (hook : Hook) (offset : Vec2)
    (parent_rect : Rect) (window : NotifyWindowCtx) :
    (p.draw hook offset parent_rect window).1 = p := by
  unfold ScrollingTextBlockParameters.draw
  split
  · rfl
  · dsimp only
    split <;> rfl

theorem TextBlockParameters.textDraw_fst
    (p : TextBlockParameters) (hook : Hook) (offset : Vec2)
    (parent_rect : Rect) (window : NotifyWindowCtx) :
    (p.draw hook offset parent_rect window).1 = p := by
  unfold TextBlockParameters.draw
  split <;> rfl

/-- C9: for every block and every inputs, draw leaves every cached block
field unchanged — in the scrolling variant real_text, real_width,
clip_rect, text_rect, scroll_distance, update_enabled, scroll_t and
scroll_speed — it may read but never advances animation state.  In the
source both draw implementations take the receiver by shared reference;
the translation returns the receiver and this theorem checks that it is
returned unmodified. -/
theorem draw_preserves_block_state
    (ps : ScrollingTextBlockParameters) (pt : TextBlockParameters)
    (hook : Hook) (offset : Vec2) (parent_rect : Rect) (window : NotifyWindowCtx) :
    ((ps.draw hook offset parent_rect window).1.real_text = ps.real_text ∧
     (ps.draw hook offset parent_rect window).1.real_width = ps.real_width ∧
     (ps.draw hook offset parent_rect window).1.clip_rect = ps.clip_rect ∧
     (ps.draw hook offset parent_rect window).1.text_rect = ps.text_rect ∧
     (ps.draw hook offset parent_rect window).1.scroll_distance = ps.scroll_distance ∧
     (ps.draw hook offset parent_rect window).1.update_enabled = ps.update_enabled ∧
     (ps.draw hook offset parent_rect window).1.scroll_t = ps.scroll_t ∧
     (ps.draw hook offset parent_rect window).1.scroll_speed = ps.scroll_speed) ∧
    (pt.draw hook offset parent_rect window).1 = pt := by
  rw [ScrollingTextBlockParameters.scrollingDraw_fst, TextBlockParameters.textDraw_fst]
  exact ⟨⟨rfl, rfl, rfl, rfl, rfl, rfl, rfl, rfl⟩, rfl⟩

/-- C3: the size profile is selected in order — the both-images profile if
both images are present and it is configured, else the app-image profile
if the app image is present and it is configured, else the hint-image
profile if the hint image is present and it is configured, else the
default profile; a notification with only an app image never consults the
hint or both-image profile, for the scrolling-text and the text block
alike. -/
theorem size_profile_selection_order
    (ps : ScrollingTextBlockParameters) (pt : TextBlockParameters) (n : Notification) :
    (n.app_image.isSome = true → n.hint_image.isSome = true →
      ps.get_width n = ps.width_image_both.getD ps.width ∧
      pt.get_dimensions n = pt.dimensions_image_both.getD pt.dimensions) ∧
    (n.app_image.isSome = true → n.hint_image.isSome = false →
      ps.get_width n = ps.width_image_app.getD ps.width ∧
      pt.get_dimensions n = pt.dimensions_image_app.getD pt.dimensions) ∧
    (n.app_image.isSome = false → n.hint_image.isSome = true →
      ps.get_width n = ps.width_image_hint.getD ps.width ∧
      pt.get_dimensions n = pt.dimensions_image_hint.getD pt.dimensions) ∧
    (n.app_image.isSome = false → n.hint_image.isSome = false →
      ps.get_width n = ps.width ∧
      pt.get_dimensions n = pt.dimensions) ∧
    (n.app_image.isSome = true → n.hint_image.isSome = false →
      ∀ wh wb dh db,
        ({ ps with width_image_hint := wh, width_image_both := wb }
          : ScrollingTextBlockParameters).get_width n = ps.get_width n ∧
        ({ pt with dimensions_image_hint := dh, dimensions_image_both := db }
          : TextBlockParameters).get_dimensions n = pt.get_dimensions n) := by
  refine ⟨fun h1 h2 => ?_, fun h1 h2 => ?_, fun h1 h2 => ?_, fun h1 h2 => ?_,
    fun h1 h2 wh wb dh db => ?_⟩ <;>
    simp [ScrollingTextBlockParameters.get_width, TextBlockParameters.get_dimensions, h1, h2]

/-- Witness for C3 at a concrete app-image-only notification. -/
theorem size_profile_selection_order_witness :
    (⟨Option.some (), Option.none⟩ : Notification).app_image.isSome = true ∧
    (⟨Option.some (), Option.none⟩ : Notification).hint_image.isSome = false ∧
    scrollScenarioParams.get_width ⟨Option.some (), Option.none⟩ =
      scrollScenarioParams.width_image_app.getD scrollScenarioParams.width :=
  ⟨rfl, rfl,
    ((size_profile_selection_order scrollScenarioParams textScenarioParams
      ⟨Option.some (), Option.none⟩).2.1 rfl rfl).1⟩

theorem ScrollingTextBlockParameters.update_snd
    (p : ScrollingTextBlockParameters) (dt : ℚ) :
    (p.update dt).2 = p.update_enabled := by
  unfold ScrollingTextBlockParameters.update
  by_cases h : p.update_enabled <;> simp [h]

theorem ScrollingTextBlockParameters.update_speed_cases
    (p : ScrollingTextBlockParameters) (dt : ℚ) :
    (p.update dt).1.scroll_speed = p.scroll_speed ∨
    (p.update dt).1.scroll_speed = -p.scroll_speed := by
  unfold ScrollingTextBlockParameters.update
  split
  · exact Or.inl rfl
  · dsimp only
    split
    · split
      · exact Or.inr rfl
      · exact Or.inl rfl
    · split
      · split
        · exact Or.inr rfl
        · exact Or.inl rfl
      · exact Or.inl rfl

theorem ScrollingTextBlockParameters.updateIter_abs_speed
    (dts : List ℚ) : ∀ p : ScrollingTextBlockParameters,
    |(p.updateIter dts).scroll_speed| = |p.scroll_speed| := by
  induction dts with
  | nil => intro p; rfl
  | cons dt rest ih =>
    intro p
    show |(((p.update dt).1).updateIter rest).scroll_speed| = |p.scroll_speed|
    rw [ih]
    rcases ScrollingTextBlockParameters.update_speed_cases p dt with hc | hc
    · rw [hc]
    · rw [hc, abs_neg]

theorem ScrollingTextBlockParameters.update_zero_speed
    (p : ScrollingTextBlockParameters) (dt : ℚ) (h : p.scroll_speed = 0) :
    p.update dt = (p, p.update_enabled) := by
  unfold ScrollingTextBlockParameters.update
  by_cases hue : p.update_enabled
  · simp only [hue, h, Bool.not_true, Bool.false_eq_true, if_false, mul_zero,
      zero_mul, add_zero, lt_irrefl, if_neg, ite_false, gt_iff_lt, Prod.mk.injEq]
    rw [← h, ← hue]
    simp
  · simp [hue]

theorem ScrollingTextBlockParameters.updateIter_zero_speed
    (p : ScrollingTextBlockParameters) (dts : List ℚ) (h : p.scroll_speed = 0) :
    p.updateIter dts = p := by
  induction dts with
  | nil => rfl
  | cons dt rest ih =>
    show ((p.update dt).1).updateIter rest = p
    rw [ScrollingTextBlockParameters.update_zero_speed p dt h]
    exact ih

/-- C10: each call to update either keeps scroll_speed or negates it, so
the absolute value of scroll_speed is invariant across any sequence of
updates; a block configured with scroll_speed zero keeps scroll_speed
zero and scroll_t constant forever, and update returns true exactly when
update_enabled holds. -/
theorem scroll_speed_magnitude_invariant
    (p : ScrollingTextBlockParameters) (dt : ℚ) (dts : List ℚ) :
    ((p.update dt).1.scroll_speed = p.scroll_speed ∨
     (p.update dt).1.scroll_speed = -p.scroll_speed) ∧
    |(p.updateIter dts).scroll_speed| = |p.scroll_speed| ∧
    (p.update dt).2 = p.update_enabled ∧
    (p.scroll_speed = 0 →
      p.updateIter dts = p ∧ (p.updateIter dts).scroll_t = p.scroll_t) := by
  refine ⟨ScrollingTextBlockParameters.update_speed_cases p dt,
    ScrollingTextBlockParameters.updateIter_abs_speed dts p,
    ScrollingTextBlockParameters.update_snd p dt,
    fun h0 => ?_⟩
  rw [ScrollingTextBlockParameters.updateIter_zero_speed p dts h0]
  exact ⟨rfl, rfl⟩

/-- Witness for C10 at the mid-animation block with speed zero: the state
is unchanged over two one-second frames. -/
theorem scroll_speed_magnitude_invariant_witness :
    scrollZeroSpeedParams.scroll_speed = 0 ∧
    scrollZeroSpeedParams.updateIter [1, 1] = scrollZeroSpeedParams :=
  ⟨rfl,
    ((scroll_speed_magnitude_invariant scrollZeroSpeedParams 1 [1, 1]).2.2.2 rfl).1⟩

/-- C4: with update_enabled true, update adds
elapsed_seconds * scroll_speed * (profile.max_width / scroll_distance) to
scroll_t, then negates scroll_speed exactly when scroll_speed was
positive and the new scroll_t is at least 1, or scroll_speed was negative
and the new scroll_t is at most 0; scroll_t is never clamped to [0, 1]
(the sum is stored as is), and update returns true. -/
theorem scrolling_update_step
    (p : ScrollingTextBlockParameters) (dt : ℚ) (h : p.update_enabled = true) :
    (p.update dt).2 = true ∧
    (p.update dt).1.scroll_t =
      p.scroll_t + dt * p.scroll_speed * ((p.real_width.max : ℚ) / p.scroll_distance) ∧
    (p.update dt).1.scroll_speed =
      if (0 < p.scroll_speed ∧
            1 ≤ p.scroll_t + dt * p.scroll_speed * ((p.real_width.max : ℚ) / p.scroll_distance))
          ∨ (p.scroll_speed < 0 ∧
            p.scroll_t + dt * p.scroll_speed * ((p.real_width.max : ℚ) / p.scroll_distance) ≤ 0)
      then -p.scroll_speed else p.scroll_speed := by
  unfold ScrollingTextBlockParameters.update
  simp only [h, Bool.not_true, Bool.false_eq_true, if_false]
  refine ⟨trivial, ?_, ?_⟩
  · dsimp only
    split
    · split <;> rfl
    · split
      · split <;> rfl
      · rfl
  · dsimp only [gt_iff_lt, ge_iff_le]
    by_cases h1 : 0 < p.scroll_speed
    · by_cases h2 :
        1 ≤ p.scroll_t + dt * p.scroll_speed * ((p.real_width.max : ℚ) / p.scroll_distance)
      · simp [h1, h2]
      · simp [h1, h2, lt_asymm h1]
    · by_cases h3 : p.scroll_speed < 0
      · by_cases h4 :
          p.scroll_t + dt * p.scroll_speed * ((p.real_width.max : ℚ) / p.scroll_distance) ≤ 0
        · simp [h1, h3, h4]
        · simp [h1, h3, h4]
      · simp [h1, h3]

/-- Witness for C4 at the concrete spec scenario state: speed 0.5,
max_width 100, scroll_distance 55, scroll_t 0.2, one second elapsed. -/
theorem scrolling_update_step_witness :
    scrollEnabledParams.update_enabled = true ∧
    (scrollEnabledParams.update 1).2 = true ∧
    (scrollEnabledParams.update 1).1.scroll_t =
      scrollEnabledParams.scroll_t + 1 * scrollEnabledParams.scroll_speed
        * ((scrollEnabledParams.real_width.max : ℚ) / scrollEnabledParams.scroll_distance) :=
  ⟨rfl, (scrolling_update_step scrollEnabledParams 1 rfl).1,
    (scrolling_update_step scrollEnabledParams 1 rfl).2.1⟩

/-- C2 (code bug evidence): on the concrete spec scenario — profile
max_width 100, text_rect.width 150, padding.left 5, lhs_dist 2,
rhs_dist 3, clip_rect.width 100, anchor at x = 0 — init computes
scroll_distance 55 from the bounce points 7 and -48 exactly as the claim
states, but draw recomputes the bounce points from the position already
shifted by padding.left and paints the text at x = -43 when scroll_t = 0
and at x = 12 when scroll_t = 1, not at the claimed -48 and 7. -/
theorem scenario_draw_paint_position :
    ((scrollScenarioParams.predict_rect_and_init .topLeft ⟨0, 0⟩ Rect.empty
        ctxScenario).1).scroll_distance = 55 ∧
    ((scrollScenarioParams.predict_rect_and_init .topLeft ⟨0, 0⟩ Rect.empty
        ctxScenario).1).text_rect.width = 150 ∧
    ((scrollScenarioParams.predict_rect_and_init .topLeft ⟨0, 0⟩ Rect.empty
        ctxScenario).1).clip_rect.width = 100 ∧
    (((scrollScenarioParams.predict_rect_and_init .topLeft ⟨0, 0⟩ Rect.empty
        ctxScenario).1).draw .topLeft ⟨0, 0⟩ Rect.empty ctxScenario).2.2 =
      [.clip ⟨5, 0, 100, 10⟩, .paintText ⟨-43, 0⟩] ∧
    (({ (scrollScenarioParams.predict_rect_and_init .topLeft ⟨0, 0⟩ Rect.empty
        ctxScenario).1 with scroll_t := 1 }).draw .topLeft ⟨0, 0⟩ Rect.empty
        ctxScenario).2.2 =
      [.clip ⟨5, 0, 100, 10⟩, .paintText ⟨12, 0⟩] ∧
    ((-43 : ℚ) ≠ -48 ∧ (12 : ℚ) ≠ 7) := by
  have hne : "hello".isEmpty = false := by decide
  norm_num [scrollScenarioParams, ctxScenario, measureScenario,
    ScrollingTextBlockParameters.predict_rect_and_init,
    ScrollingTextBlockParameters.draw,
    ScrollingTextBlockParameters.get_width, TextMeasure.sizedPaddedRect,
    LayoutBlock.find_anchor_pos, AnchorPosition.pointX, AnchorPosition.pointY,
    Rect.empty, Rect.set_xy, distance, lerp, hne]

theorem ScrollingTextBlockParameters.scrollingInit_idem
    (p : ScrollingTextBlockParameters) (hook : Hook) (offset : Vec2)
    (parent_rect : Rect) (window : NotifyWindowCtx) :
    ((p.predict_rect_and_init hook offset parent_rect window).1).predict_rect_and_init
        hook offset parent_rect window =
      p.predict_rect_and_init hook offset parent_rect window := by
  unfold ScrollingTextBlockParameters.predict_rect_and_init
  by_cases hemp : ((window.fmtString p.text).isEmpty && !p.render_when_empty) = true
  · simp [hemp]
  · simp only [hemp, Bool.false_eq_true, if_false, ite_false]
    split
    · next h => simp_all [ScrollingTextBlockParameters.get_width]
    · next h =>
      simp only [ScrollingTextBlockParameters.get_width, gt_iff_lt, not_lt] at h
      simp [ScrollingTextBlockParameters.get_width, not_lt.mpr h]

theorem TextBlockParameters.textInit_idem
    (p : TextBlockParameters) (hook : Hook) (offset : Vec2)
    (parent_rect : Rect) (window : NotifyWindowCtx) :
    ((p.predict_rect_and_init hook offset parent_rect window).1).predict_rect_and_init
        hook offset parent_rect window =
      p.predict_rect_and_init hook offset parent_rect window := by
  unfold TextBlockParameters.predict_rect_and_init
  by_cases hemp : ((window.fmtString p.text).isEmpty && !p.render_when_empty) = true
  · simp [hemp]
  · simp [hemp, TextBlockParameters.get_dimensions]

/-- C8: for every block element and every fixed set of inputs, running
predict_rect_and_init a second time on the state cached by the first run
produces the same cached state and the same returned rect as the first
run. -/
theorem predict_rect_and_init_idempotent
    (el : DrawableElement) (hook : Hook) (offset : Vec2)
    (parent_rect : Rect) (window : NotifyWindowCtx) :
    ((el.predict_rect_and_init hook offset parent_rect window).1).predict_rect_and_init
        hook offset parent_rect window =
      el.predict_rect_and_init hook offset parent_rect window := by
  cases el with
  | textBlock p =>
    simp [DrawableElement.predict_rect_and_init, TextBlockParameters.textInit_idem]
  | scrollingText p =>
    simp [DrawableElement.predict_rect_and_init, ScrollingTextBlockParameters.scrollingInit_idem]

theorem ScrollingTextBlockParameters.scrollingDraw_rect_spec
    (p : ScrollingTextBlockParameters) (hook : Hook) (offset : Vec2)
    (parent1 parent2 : Rect) (window : NotifyWindowCtx) :
    (((p.predict_rect_and_init hook offset parent1 window).1).draw hook offset
        parent2 window).2.1 =
      Rect.mk
        (LayoutBlock.find_anchor_pos hook offset parent2
          (Rect.mk 0 0 (p.predict_rect_and_init hook offset parent1 window).2.width
            (p.predict_rect_and_init hook offset parent1 window).2.height)).x
        (LayoutBlock.find_anchor_pos hook offset parent2
          (Rect.mk 0 0 (p.predict_rect_and_init hook offset parent1 window).2.width
            (p.predict_rect_and_init hook offset parent1 window).2.height)).y
        (p.predict_rect_and_init hook offset parent1 window).2.width
        (p.predict_rect_and_init hook offset parent1 window).2.height := by
  unfold ScrollingTextBlockParameters.predict_rect_and_init
    ScrollingTextBlockParameters.draw
  by_cases hemp : ((window.fmtString p.text).isEmpty && !p.render_when_empty) = true
  · simp [hemp, Rect.empty, LayoutBlock.find_anchor_pos]
  · simp only [hemp, Bool.false_eq_true, if_false, ite_false]
    split
    · next h =>
      simp_all [ScrollingTextBlockParameters.get_width, Rect.set_xy,
        LayoutBlock.find_anchor_pos, AnchorPosition.pointX, AnchorPosition.pointY]
    · next h =>
      simp_all [ScrollingTextBlockParameters.get_width, Rect.set_xy,
        LayoutBlock.find_anchor_pos, AnchorPosition.pointX, AnchorPosition.pointY]

theorem TextBlockParameters.textDraw_rect_spec
    (p : TextBlockParameters) (hook : Hook) (offset : Vec2)
    (parent1 parent2 : Rect) (window : NotifyWindowCtx) :
    (((p.predict_rect_and_init hook offset parent1 window).1).draw hook offset
        parent2 window).2.1 =
      Rect.mk
        (LayoutBlock.find_anchor_pos hook offset parent2
          (Rect.mk 0 0 (p.predict_rect_and_init hook offset parent1 window).2.width
            (p.predict_rect_and_init hook offset parent1 window).2.height)).x
        (LayoutBlock.find_anchor_pos hook offset parent2
          (Rect.mk 0 0 (p.predict_rect_and_init hook offset parent1 window).2.width
            (p.predict_rect_and_init hook offset parent1 window).2.height)).y
        (p.predict_rect_and_init hook offset parent1 window).2.width
        (p.predict_rect_and_init hook offset parent1 window).2.height := by
  unfold TextBlockParameters.predict_rect_and_init TextBlockParameters.draw
  by_cases hemp : ((window.fmtString p.text).isEmpty && !p.render_when_empty) = true
  · simp [hemp, Rect.empty, LayoutBlock.find_anchor_pos]
  · simp [hemp, TextBlockParameters.get_dimensions, Rect.set_xy,
      LayoutBlock.find_anchor_pos, AnchorPosition.pointX, AnchorPosition.pointY]

/-- C5: for every block, the rect returned by draw has exactly the width
and height of the rect predict_rect_and_init returned (the measurement
service being a pure function of its arguments), and its position is the
anchor-resolved position against the parent rect passed to draw — never
the scroll-shifted x. -/
theorem draw_rect_matches_init_rect
    (ps : ScrollingTextBlockParameters) (pt : TextBlockParameters)
    (hook : Hook) (offset : Vec2) (parent1 parent2 : Rect)
    (window : NotifyWindowCtx) :
    ((((ps.predict_rect_and_init hook offset parent1 window).1).draw hook offset
        parent2 window).2.1 =
      Rect.mk
        (LayoutBlock.find_anchor_pos hook offset parent2
          (Rect.mk 0 0 (ps.predict_rect_and_init hook offset parent1 window).2.width
            (ps.predict_rect_and_init hook offset parent1 window).2.height)).x
        (LayoutBlock.find_anchor_pos hook offset parent2
          (Rect.mk 0 0 (ps.predict_rect_and_init hook offset parent1 window).2.width
            (ps.predict_rect_and_init hook offset parent1 window).2.height)).y
        (ps.predict_rect_and_init hook offset parent1 window).2.width
        (ps.predict_rect_and_init hook offset parent1 window).2.height) ∧
    ((((pt.predict_rect_and_init hook offset parent1 window).1).draw hook offset
        parent2 window).2.1 =
      Rect.mk
        (LayoutBlock.find_anchor_pos hook offset parent2
          (Rect.mk 0 0 (pt.predict_rect_and_init hook offset parent1 window).2.width
            (pt.predict_rect_and_init hook offset parent1 window).2.height)).x
        (LayoutBlock.find_anchor_pos hook offset parent2
          (Rect.mk 0 0 (pt.predict_rect_and_init hook offset parent1 window).2.width
            (pt.predict_rect_and_init hook offset parent1 window).2.height)).y
        (pt.predict_rect_and_init hook offset parent1 window).2.width
        (pt.predict_rect_and_init hook offset parent1 window).2.height) :=
  ⟨ScrollingTextBlockParameters.scrollingDraw_rect_spec ps hook offset parent1 parent2 window,
   TextBlockParameters.textDraw_rect_spec pt hook offset parent1 parent2 window⟩

/-- C6: for every block whose resolved text is empty and whose
render_when_empty flag is false, predict_rect_and_init and draw both
return a zero-width, zero-height rect positioned at the anchor, draw
paints nothing, and every subsequent call to update returns false — the
scrolling block because init disabled its update, the text block because
the element update is the trait default that reports no change. -/
theorem empty_text_zero_rect_update_disabled
    (ps : ScrollingTextBlockParameters) (pt : TextBlockParameters)
    (hook : Hook) (offset : Vec2) (parent1 parent2 : Rect)
    (window : NotifyWindowCtx)
    (hes : (window.fmtString ps.text).isEmpty = true)
    (hrs : ps.render_when_empty = false)
    (het : (window.fmtString pt.text).isEmpty = true)
    (hrt : pt.render_when_empty = false) :
    ((ps.predict_rect_and_init hook offset parent1 window).2 =
        Rect.mk (LayoutBlock.find_anchor_pos hook offset parent1 Rect.empty).x
          (LayoutBlock.find_anchor_pos hook offset parent1 Rect.empty).y 0 0 ∧
      (((ps.predict_rect_and_init hook offset parent1 window).1).draw hook offset
          parent2 window).2.1 =
        Rect.mk (LayoutBlock.find_anchor_pos hook offset parent2 Rect.empty).x
          (LayoutBlock.find_anchor_pos hook offset parent2 Rect.empty).y 0 0 ∧
      (((ps.predict_rect_and_init hook offset parent1 window).1).draw hook offset
          parent2 window).2.2 = [] ∧
      (∀ dts : List ℚ,
        ((ps.predict_rect_and_init hook offset parent1 window).1).updateIter dts =
          (ps.predict_rect_and_init hook offset parent1 window).1) ∧
      (∀ (dts : List ℚ) (dt : ℚ),
        ((((ps.predict_rect_and_init hook offset parent1 window).1).updateIter
            dts).update dt).2 = false)) ∧
    ((pt.predict_rect_and_init hook offset parent1 window).2 =
        Rect.mk (LayoutBlock.find_anchor_pos hook offset parent1 Rect.empty).x
          (LayoutBlock.find_anchor_pos hook offset parent1 Rect.empty).y 0 0 ∧
      (((pt.predict_rect_and_init hook offset parent1 window).1).draw hook offset
          parent2 window).2.1 =
        Rect.mk (LayoutBlock.find_anchor_pos hook offset parent2 Rect.empty).x
          (LayoutBlock.find_anchor_pos hook offset parent2 Rect.empty).y 0 0 ∧
      (((pt.predict_rect_and_init hook offset parent1 window).1).draw hook offset
          parent2 window).2.2 = [] ∧
      (∀ dt : ℚ,
        (DrawableElement.update
          (.textBlock (pt.predict_rect_and_init hook offset parent1 window).1)
          dt).2 = false)) := by
  have hcs : ((window.fmtString ps.text).isEmpty && !ps.render_when_empty) = true := by
    rw [hes, hrs]; rfl
  have hct : ((window.fmtString pt.text).isEmpty && !pt.render_when_empty) = true := by
    rw [het, hrt]; rfl
  have hps : ps.predict_rect_and_init hook offset parent1 window =
      ({ ps with update_enabled := false, real_text := window.fmtString ps.text },
        Rect.mk (LayoutBlock.find_anchor_pos hook offset parent1 Rect.empty).x
          (LayoutBlock.find_anchor_pos hook offset parent1 Rect.empty).y 0 0) := by
    unfold ScrollingTextBlockParameters.predict_rect_and_init
    simp [hcs]
  have hpt : pt.predict_rect_and_init hook offset parent1 window =
      ({ pt with real_text := window.fmtString pt.text },
        Rect.mk (LayoutBlock.find_anchor_pos hook offset parent1 Rect.empty).x
          (LayoutBlock.find_anchor_pos hook offset parent1 Rect.empty).y 0 0) := by
    unfold TextBlockParameters.predict_rect_and_init
    simp [hct]
  rw [hps, hpt]
  refine ⟨⟨rfl, ?_, ?_, ?_, ?_⟩, rfl, ?_, ?_, fun dt => rfl⟩
  · unfold ScrollingTextBlockParameters.draw
    simp [hes, hrs]
  · unfold ScrollingTextBlockParameters.draw
    simp [hes, hrs]
  · intro dts
    exact ScrollingTextBlockParameters.updateIter_of_disabled _ dts rfl
  · intro dts dt
    rw [ScrollingTextBlockParameters.updateIter_of_disabled _ dts rfl,
      ScrollingTextBlockParameters.update_snd]
  · unfold TextBlockParameters.draw
    simp [het, hrt]
  · unfold TextBlockParameters.draw
    simp [het, hrt]

/-- Guard lemma for well-formed configurations only: under the
deserialized default update_enabled = false, nonnegative configured
bounce distances, a nonnegative selected profile max width and the
measurement contract that a constrained measure fits its max width,
coincident bounce points at init leave scrolling disabled, so update
returns false, never reaches the branch dividing by scroll_distance, and
scroll_t stays at its initial value over any sequence of frames.
Outside these conditions the guard fails; see the zero-distance
evaluation below. -/
theorem zero_scroll_distance_disables_update
    (p : ScrollingTextBlockParameters) (hook : Hook) (offset : Vec2)
    (parent_rect : Rect) (window : NotifyWindowCtx)
    (hue : p.update_enabled = false)
    (hl : 0 ≤ p.lhs_dist) (hr : 0 ≤ p.rhs_dist)
    (hm : 0 ≤ (p.get_width window.notification).max)
    (hclamp : ∀ t f : String, ∀ m : ℤ, 0 ≤ m →
      (window.text.contentSize t f m 0 .middle).1 ≤ (m : ℚ))
    (hzero : ((p.predict_rect_and_init hook offset parent_rect window).1).scroll_distance = 0) :
    ((p.predict_rect_and_init hook offset parent_rect window).1).update_enabled = false ∧
    (∀ dt : ℚ,
      ((p.predict_rect_and_init hook offset parent_rect window).1).update dt =
        ((p.predict_rect_and_init hook offset parent_rect window).1, false)) ∧
    (∀ dts : List ℚ,
      ((p.predict_rect_and_init hook offset parent_rect window).1).updateIter dts =
        (p.predict_rect_and_init hook offset parent_rect window).1) := by
  have hue2 : ((p.predict_rect_and_init hook offset parent_rect window).1).update_enabled = false := by
    unfold ScrollingTextBlockParameters.predict_rect_and_init at hzero ⊢
    by_cases hemp : ((window.fmtString p.text).isEmpty && !p.render_when_empty) = true
    · simp [hemp]
    · simp only [hemp, Bool.false_eq_true, if_false, ite_false] at hzero ⊢
      simp only [distance, abs_eq_zero, sub_eq_zero] at hzero
      have hs1 : (window.text.contentSize (window.fmtString p.text) p.font
          (p.get_width window.notification).max 0 .middle).1 ≤
          ((p.get_width window.notification).max : ℚ) :=
        hclamp _ _ _ hm
      have h0 : (0 : ℚ) ≤ ((p.get_width window.notification).max : ℚ) := by
        exact_mod_cast hm
      have hclip : max (window.text.contentSize (window.fmtString p.text) p.font
          (p.get_width window.notification).max 0 .middle).1 (0 : ℚ) ≤
          ((p.get_width window.notification).max : ℚ) := max_le hs1 h0
      simp only [TextMeasure.sizedPaddedRect] at hzero ⊢
      simp only [gt_iff_lt] at hzero ⊢
      rw [if_neg]
      · exact hue
      · push_neg
        simp only [Int.cast_zero, add_zero] at hzero ⊢
        linarith [hzero, hclip, hl, hr]
  exact ⟨hue2,
    fun dt => ScrollingTextBlockParameters.update_of_disabled _ dt hue2,
    fun dts => ScrollingTextBlockParameters.updateIter_of_disabled _ dts hue2⟩

/-- The guard lemma instantiated at a concrete well-formed block whose
bounce points coincide: natural text width 10, profile max 20, zero
padding and bounce distances, so clip and text extents agree and
scroll_distance is 0. -/
theorem zero_scroll_distance_disables_update_witness :
    ((scrollCoincidentParams.predict_rect_and_init .topLeft ⟨0, 0⟩ Rect.empty
        ctxClamped).1).scroll_distance = 0 ∧
    ((scrollCoincidentParams.predict_rect_and_init .topLeft ⟨0, 0⟩ Rect.empty
        ctxClamped).1).update_enabled = false := by
  have ha : ("a".isEmpty) = false := by decide
  have hzero : ((scrollCoincidentParams.predict_rect_and_init .topLeft ⟨0, 0⟩
      Rect.empty ctxClamped).1).scroll_distance = 0 := by
    norm_num [scrollCoincidentParams, ctxClamped, measureClamped,
      ScrollingTextBlockParameters.predict_rect_and_init,
      ScrollingTextBlockParameters.get_width, TextMeasure.sizedPaddedRect,
      LayoutBlock.find_anchor_pos, AnchorPosition.pointX, AnchorPosition.pointY,
      Rect.empty, Rect.set_xy, distance, ha]
  refine ⟨hzero, (zero_scroll_distance_disables_update scrollCoincidentParams .topLeft
    ⟨0, 0⟩ Rect.empty ctxClamped rfl le_rfl le_rfl (by decide)
    (fun t f m hm0 => ?_) hzero).1⟩
  simp only [ctxClamped, measureClamped]
  rw [if_pos hm0]
  exact min_le_left _ _

/-- Witness for C6 at a block whose template is the empty string. -/
theorem empty_text_zero_rect_update_disabled_witness :
    (ctxScenario.fmtString scrollEmptyParams.text).isEmpty = true ∧
    scrollEmptyParams.render_when_empty = false ∧
    ((scrollEmptyParams.predict_rect_and_init .topLeft ⟨0, 0⟩ Rect.empty
        ctxScenario).1).updateIter [1] =
      (scrollEmptyParams.predict_rect_and_init .topLeft ⟨0, 0⟩ Rect.empty
        ctxScenario).1 :=
  ⟨rfl, rfl,
    ((empty_text_zero_rect_update_disabled scrollEmptyParams textEmptyParams .topLeft
        ⟨0, 0⟩ Rect.empty Rect.empty ctxScenario rfl rfl rfl rfl).1.2.2.2.1) [1]⟩

/-- C7: with fuse mode active, update decrements the fuse by the elapsed
milliseconds; when the decremented fuse is at most 0 it marks the window
for destruction, returns true, requests no redraw and skips the
draw-mode branch, leaving the layout tree untouched; otherwise, with draw
mode active, it runs the layout tree update and both returns and requests
a redraw exactly when some block reported a change. -/
theorem window_update_fuse_and_draw
    (w : NotifyWindow) (dt : Duration)
    (hf : w.update_mode.fuse = true) :
    (w.fuse - dt.millis ≤ 0 →
      w.update dt =
        ({ w with fuse := w.fuse - dt.millis, marked_for_destroy := true },
          true, false)) ∧
    (0 < w.fuse - dt.millis → w.update_mode.draw = true →
      w.update dt =
        ({ w with
            fuse := w.fuse - dt.millis
            layout := (w.layout.update_tree dt.secs).1 },
          (w.layout.update_tree dt.secs).2, (w.layout.update_tree dt.secs).2)) := by
  constructor
  · intro hle
    unfold NotifyWindow.update
    rw [if_pos hf, if_pos]
    exact hle
  · intro hgt hd
    unfold NotifyWindow.update
    rw [if_pos hf, if_neg, if_pos]
    · exact hd
    · exact not_le.mpr hgt

/-- Witness for C7 at the concrete window: a 200 ms frame burns the
100 ms fuse and marks the window for destruction without a redraw. -/
theorem window_update_fuse_and_draw_witness :
    windowScenario.update_mode.fuse = true ∧
    windowScenario.fuse - (200 : ℤ) ≤ 0 ∧
    windowScenario.update ⟨200, 1/5⟩ =
      ({ windowScenario with
          fuse := windowScenario.fuse - 200
          marked_for_destroy := true }, true, false) :=
  ⟨rfl, by decide,
    (window_update_fuse_and_draw windowScenario ⟨200, 1/5⟩ rfl).1 (by decide)⟩

/-- C1 (code bug evidence): at a block with the spec-documented
unconstrained profile max width (-1), zero padding and zero bounce
distances, init caches coincident bounce points (scroll_distance 0) yet
leaves update_enabled true, because the overflow test compares the text
extent against the negative max; update then still runs (returns true)
and executes the increment that divides the profile max width by the
zero scroll_distance, instead of treating the block as needing no
scrolling.  In the f64 source that division yields a non-finite
scroll_t; rational division is total here, so the theorem exhibits the
missing guard — update enabled and reporting a change at zero
scroll_distance — rather than the non-finite value itself. -/
theorem unconstrained_width_zero_distance_update_enabled :
    ((scrollUnconstrainedParams.predict_rect_and_init .topLeft ⟨0, 0⟩ Rect.empty
        ctxClamped).1).scroll_distance = 0 ∧
    ((scrollUnconstrainedParams.predict_rect_and_init .topLeft ⟨0, 0⟩ Rect.empty
        ctxClamped).1).update_enabled = true ∧
    (((scrollUnconstrainedParams.predict_rect_and_init .topLeft ⟨0, 0⟩ Rect.empty
        ctxClamped).1).update 1).2 = true := by
  have ha : ("a".isEmpty) = false := by decide
  norm_num [scrollUnconstrainedParams, ctxClamped, measureClamped,
    ScrollingTextBlockParameters.predict_rect_and_init,
    ScrollingTextBlockParameters.update,
    ScrollingTextBlockParameters.get_width, TextMeasure.sizedPaddedRect,
    LayoutBlock.find_anchor_pos, AnchorPosition.pointX, AnchorPosition.pointY,
    Rect.empty, Rect.set_xy, distance, ha]
